import Mathlib

/-!
Verification development for the replbot session engine.

Each definition below is a shallow embedding of a function from the Go
sources of the repository (file and line references are given in the doc
comments). Machine bytes are modelled as `Nat`; Go code that can panic is
modelled as an `Option`-returning function whose `none` branch is the
runtime panic; effectful code is modelled by explicit state passing and
event traces.
-/

namespace Replbot

/-- Control-byte alias table from src/session.go lines 21-28; the identical
table appears in src/unnamed/part_001 lines 17-24. Maps a textual alias to
the raw byte written to the pty. -/
def controlCharTable (s : String) : Option Nat :=
  if s = "r" then some 0x10
  else if s = "ret" then some 0x10
  else if s = "ctrl-c" then some 0x03
  else if s = "ctrl-d" then some 0x04
  else none

/-- helpCommand constant, src/session.go line 34. -/
def helpCommand : String := "!help"

/-- exitCommand constant, src/session.go line 35. -/
def exitCommand : String := "!exit"

/-- availableCommandsMessage constant, src/session.go lines 36-39. -/
def availableCommandsMessage : String :=
  "Available commands:\n" ++
  "  `!ret`, `!r` - Send empty return\n" ++
  "  `!ctrl-c`, `!ctrl-d`, ... - Send command sequence\n" ++
  "  `!exit` - Exit this session"

/-- Modelled from the spec: the commentPrefix constant referenced by
src/bot/repl.go line 93 is declared in a part of the repository that is
not under src/. The spec (section 4.3 rule 2) says lines beginning with
`#` are ignored as comments. -/
def commentMarker : String := "#"

/-- Go string slicing s[1:], as used on user input: defined when
1 <= len(s), and a runtime panic (slice bounds out of range) otherwise. -/
def goTail (s : String) : Option String :=
  match s.data with
  | [] => none
  | _ :: cs => some (String.mk cs)

/-- Helper for strBegins: prefix test on character lists. -/
def strBeginsGo : List Char → List Char → Bool
  | [], _ => true
  | _ :: _, [] => false
  | p :: ps, c :: cs => p = c && strBeginsGo ps cs

/-- strings.HasPrefix(s, p) from the Go standard library, computed on the
character lists so that it reduces definitionally. -/
def strBegins (s p : String) : Bool :=
  strBeginsGo p.data s.data

/-- Observable effect of handling one accepted input line: a chat message
send, raw bytes written to the pty, text pasted to the pty (with the
trailing newline appended by the router), the errExit return, or a
silently ignored line. -/
inductive TermAction where
  | sendMsg (msg : String)
  | writeBytes (bs : List Nat)
  | paste (text : String)
  | exitRepl
  | ignore
deriving DecidableEq, Repr

end Replbot

namespace Replbot.Repl

/-- handleUserInput from src/bot/repl.go lines 85-102. The `none` result is
the Go runtime panic: for input outside the help/exit/comment cases the
code evaluates input[1:], which panics on the empty string (the code's own
TODO comment at line 92 notes that empty lines are not handled). -/
def handleUserInput (input : String) : Option Replbot.TermAction :=
  if input = Replbot.helpCommand then some (.sendMsg Replbot.availableCommandsMessage)
  else if input = Replbot.exitCommand then some .exitRepl
  else if Replbot.strBegins input Replbot.commentMarker then some .ignore
  else
    match Replbot.goTail input with
    | none => none
    | some tail =>
      match Replbot.controlCharTable tail with
      | some b => some (.writeBytes [b])
      | none => some (.paste (input ++ "\n"))

end Replbot.Repl

namespace Replbot.MainSession

/-- handleUserInput from src/session.go lines 265-280 (the package-main
variant; identical to the repl.go variant except that it has no comment
check). The `none` result is the Go runtime panic on input[1:] for the
empty string. -/
def handleUserInput (input : String) : Option Replbot.TermAction :=
  if input = Replbot.helpCommand then some (.sendMsg Replbot.availableCommandsMessage)
  else if input = Replbot.exitCommand then some .exitRepl
  else
    match Replbot.goTail input with
    | none => none
    | some tail =>
      match Replbot.controlCharTable tail with
      | some b => some (.writeBytes [b])
      | none => some (.paste (input ++ "\n"))

end Replbot.MainSession

namespace Replbot

/-- Auth mode of a session (config.OnlyMe / config.Everyone, referenced in
src/bot/bot.go lines 180 and 193). -/
inductive AuthMode where
  | onlyMe
  | everyone
deriving DecidableEq, Repr

/-- Result of delivering one chat line to a session's input router:
silently dropped by authorization, a Go runtime panic, or a performed
action. -/
inductive RouteResult where
  | dropped
  | panicked
  | acted (a : TermAction)
deriving DecidableEq, Repr

/-- Routing of an accepted (authorized) line through the input router
(handleUserInput from src/bot/repl.go). -/
def routeAccepted (line : String) : RouteResult :=
  match Repl.handleUserInput line with
  | none => RouteResult.panicked
  | some a => RouteResult.acted a

/-- Modelled from the spec: the session type consuming user input is not
under src/ (src/bot/bot.go line 161 calls sess.UserInput(ev.User,
ev.Message), but the session's UserInput method is missing). Per the spec
(section 4.3 rule 1), authorization is applied first: if auth = only-me,
lines whose author is not the session owner are dropped silently;
everyone accepts all chat users. Accepted lines are handled by the input
router handleUserInput from src/bot/repl.go. -/
def sessionUserInput (auth : AuthMode) (owner user line : String) : RouteResult :=
  match auth with
  | AuthMode.onlyMe => if user = owner then routeAccepted line else RouteResult.dropped
  | AuthMode.everyone => routeAccepted line

/-- Whether a routing result writes any data to the terminal (a Paste or a
SendKeys-style raw write). -/
def writesTerminal : RouteResult → Bool
  | RouteResult.acted (TermAction.writeBytes _) => true
  | RouteResult.acted (TermAction.paste _) => true
  | _ => false

end Replbot

/-- C4: the control-byte alias table maps the aliases r and ret to the byte
0x10 (DLE), not to 0x0A as the spec states; handling the line !r therefore
writes the single byte 0x10 to the terminal. The ctrl-c and ctrl-d rows
match the spec (0x03 and 0x04). This contradicts the code's own help text
("Send empty return"), so the table value is a slip in the code. -/
theorem c4_alias_r_maps_to_dle :
    Replbot.controlCharTable "r" = some 0x10 ∧
    Replbot.controlCharTable "ret" = some 0x10 ∧
    (0x10 : Nat) ≠ 0x0A ∧
    Replbot.Repl.handleUserInput "!r" = some (Replbot.TermAction.writeBytes [0x10]) ∧
    Replbot.controlCharTable "ctrl-c" = some 0x03 ∧
    Replbot.controlCharTable "ctrl-d" = some 0x04 := by
  decide

/-- C10: the input router's handleUserInput is not total: on the empty
input line both variants (src/bot/repl.go and src/session.go) evaluate
input[1:], whose lower bound exceeds the string length, so the embedded
total function reaches its panic branch (`none`); every other
non-comment line is handled without reaching it. -/
theorem c10_empty_input_not_total :
    Replbot.Repl.handleUserInput "" = none ∧
    Replbot.MainSession.handleUserInput "" = none ∧
    Replbot.Repl.handleUserInput "x" ≠ none := by
  decide

/-- C7 counterexample: the plain line ctrl-c is not handled like !ctrl-c.
The router looks up input[1:] ("trl-c"), misses the table, and pastes the
line as text with a trailing newline, while !ctrl-c writes the raw byte
0x03 - so the plain and prefixed forms are not equivalent. -/
theorem c7_plain_alias_pasted_counterexample :
    Replbot.Repl.handleUserInput "ctrl-c" = some (Replbot.TermAction.paste "ctrl-c\n") ∧
    Replbot.MainSession.handleUserInput "ctrl-c" = some (Replbot.TermAction.paste "ctrl-c\n") ∧
    Replbot.Repl.handleUserInput "!ctrl-c" = some (Replbot.TermAction.writeBytes [0x03]) := by
  decide

/-- C7 amended: for every registered control-char alias a, handling the
prefixed line "!"+a writes exactly the corresponding raw byte, while
handling the plain line a pastes it as a text line with a trailing
newline (the router strips the first character of every line before the
table lookup, so the plain and prefixed forms are not equivalent). -/
theorem c7_amended_prefixed_only (a : String) (b : Nat)
    (h : Replbot.controlCharTable a = some b) :
    Replbot.Repl.handleUserInput ("!" ++ a) = some (Replbot.TermAction.writeBytes [b]) ∧
    Replbot.Repl.handleUserInput a = some (Replbot.TermAction.paste (a ++ "\n")) := by
  unfold Replbot.controlCharTable at h
  split_ifs at h with h1 h2 h3 h4
  · subst h1; injection h with hb; subst hb; exact ⟨by decide, by decide⟩
  · subst h2; injection h with hb; subst hb; exact ⟨by decide, by decide⟩
  · subst h3; injection h with hb; subst hb; exact ⟨by decide, by decide⟩
  · subst h4; injection h with hb; subst hb; exact ⟨by decide, by decide⟩

/-- C7 amended, witness at the alias ctrl-c. -/
theorem c7_amended_prefixed_only_witness :
    Replbot.Repl.handleUserInput "!ctrl-c" = some (Replbot.TermAction.writeBytes [0x03]) ∧
    Replbot.Repl.handleUserInput "ctrl-c" = some (Replbot.TermAction.paste ("ctrl-c" ++ "\n")) :=
  c7_amended_prefixed_only "ctrl-c" 0x03 rfl

/-- C1: in only-me mode, a line whose author is not the session owner is
dropped silently - it never reaches a Paste or a raw-byte write - while
in everyone mode no line is dropped by authorization. -/
theorem c1_only_me_drops_nonowner (owner user line : String) (h : user ≠ owner) :
    Replbot.sessionUserInput Replbot.AuthMode.onlyMe owner user line = Replbot.RouteResult.dropped ∧
    Replbot.writesTerminal
      (Replbot.sessionUserInput Replbot.AuthMode.onlyMe owner user line) = false ∧
    ∀ o u l : String,
      Replbot.sessionUserInput Replbot.AuthMode.everyone o u l ≠ Replbot.RouteResult.dropped := by
  refine ⟨?_, ?_, ?_⟩
  · simp [Replbot.sessionUserInput, h]
  · simp [Replbot.sessionUserInput, h, Replbot.writesTerminal]
  · intro o u l
    simp only [Replbot.sessionUserInput, Replbot.routeAccepted]
    cases Replbot.Repl.handleUserInput l <;> simp

/-- C1, witness: owner U1, a line sent by U2 is dropped. -/
theorem c1_only_me_drops_nonowner_witness :
    Replbot.sessionUserInput Replbot.AuthMode.onlyMe "U1" "U2" "rm -rf /" =
      Replbot.RouteResult.dropped ∧
    Replbot.writesTerminal
      (Replbot.sessionUserInput Replbot.AuthMode.onlyMe "U1" "U2" "rm -rf /") = false :=
  ⟨(c1_only_me_drops_nonowner "U1" "U2" "rm -rf /" (by decide)).1,
    (c1_only_me_drops_nonowner "U1" "U2" "rm -rf /" (by decide)).2.1⟩

namespace Replbot.BotDispatch

/-- Control mode values from the config package (thread / channel / split),
as matched in src/bot/bot.go lines 176-177. -/
inductive ControlMode where
  | thread
  | channel
  | split
deriving DecidableEq, Repr

/-- Window mode values (full / trim), src/bot/bot.go lines 178-179. -/
inductive WindowMode where
  | full
  | trim
deriving DecidableEq, Repr

/-- Terminal size values (tiny / small / medium / large), src/bot/bot.go
lines 182-183. -/
inductive TermSize where
  | tiny
  | small
  | medium
  | large
deriving DecidableEq, Repr

/-- Chat platform, src/bot/bot.go line 216. -/
inductive Platform where
  | slack
  | discord
deriving DecidableEq, Repr

/-- Channel type of the triggering message event, src/bot/bot.go line 216. -/
inductive ChannelType where
  | dm
  | channel
  | unknown
deriving DecidableEq, Repr

/-- The sessionConfig fields touched by applySessionConfigDefaults; a Go
zero value ("" or nil) is modelled as `none`. -/
structure SessionConfig where
  controlMode : Option ControlMode
  windowMode : Option WindowMode
  authMode : Option Replbot.AuthMode
  size : Option TermSize
deriving DecidableEq, Repr

/-- The resolved session configuration returned by
applySessionConfigDefaults (all fields filled in). -/
structure ResolvedConfig where
  controlMode : ControlMode
  windowMode : WindowMode
  authMode : Replbot.AuthMode
  size : TermSize
deriving DecidableEq, Repr

/-- The global bot configuration fields read by
applySessionConfigDefaults. -/
structure BotDefaults where
  defaultControlMode : ControlMode
  defaultWindowMode : WindowMode
  defaultAuthMode : Replbot.AuthMode
  defaultSize : TermSize
  platform : Platform
deriving DecidableEq, Repr

/-- The message-event fields read by applySessionConfigDefaults. -/
structure MsgEventInfo where
  thread : String
  channelType : ChannelType
deriving DecidableEq, Repr

/-- applySessionConfigDefaults from src/bot/bot.go lines 208-237: fills the
omitted fields of a parsed session config. An omitted control mode becomes
thread when the trigger was sent inside a thread, else the global default;
Discord direct messages are forced to channel mode; an omitted window mode
becomes trim in thread mode, else the global default; an omitted auth mode
becomes the global default; an omitted size becomes tiny in thread mode,
else the global default. -/
def applySessionConfigDefaults (b : BotDefaults) (ev : MsgEventInfo)
    (conf : SessionConfig) : ResolvedConfig :=
  let cm :=
    match conf.controlMode with
    | none => if ev.thread ≠ "" then ControlMode.thread else b.defaultControlMode
    | some m => m
  let cm :=
    if b.platform = Platform.discord ∧ ev.channelType = ChannelType.dm ∧
        cm ≠ ControlMode.channel then
      ControlMode.channel
    else cm
  let wm :=
    match conf.windowMode with
    | none => if cm = ControlMode.thread then WindowMode.trim else b.defaultWindowMode
    | some w => w
  let am :=
    match conf.authMode with
    | none => b.defaultAuthMode
    | some a => a
  let sz :=
    match conf.size with
    | none => if cm = ControlMode.thread then TermSize.tiny else b.defaultSize
    | some s => s
  ⟨cm, wm, am, sz⟩

end Replbot.BotDispatch

/-- C8: when the resolved control mode is thread, an omitted window-mode
token resolves to trim and an omitted size token resolves to tiny, while
explicitly supplied window-mode or size tokens are kept unchanged. -/
theorem c8_thread_defaults (b : Replbot.BotDispatch.BotDefaults)
    (ev : Replbot.BotDispatch.MsgEventInfo) (conf : Replbot.BotDispatch.SessionConfig)
    (h : (Replbot.BotDispatch.applySessionConfigDefaults b ev conf).controlMode =
      Replbot.BotDispatch.ControlMode.thread) :
    (conf.windowMode = none →
      (Replbot.BotDispatch.applySessionConfigDefaults b ev conf).windowMode =
        Replbot.BotDispatch.WindowMode.trim) ∧
    (∀ w, conf.windowMode = some w →
      (Replbot.BotDispatch.applySessionConfigDefaults b ev conf).windowMode = w) ∧
    (conf.size = none →
      (Replbot.BotDispatch.applySessionConfigDefaults b ev conf).size =
        Replbot.BotDispatch.TermSize.tiny) ∧
    (∀ s, conf.size = some s →
      (Replbot.BotDispatch.applySessionConfigDefaults b ev conf).size = s) := by
  unfold Replbot.BotDispatch.applySessionConfigDefaults at h ⊢
  cases hw : conf.windowMode <;> cases hs : conf.size <;>
    cases hc : conf.controlMode <;>
    simp only [hw, hs, hc] at h ⊢ <;>
    split_ifs at h ⊢ <;>
    simp_all

/-- C8, witness: a trigger sent inside a thread with every token omitted
resolves to thread mode with window mode trim and size tiny. -/
theorem c8_thread_defaults_witness :
    (Replbot.BotDispatch.applySessionConfigDefaults
      ⟨Replbot.BotDispatch.ControlMode.channel, Replbot.BotDispatch.WindowMode.full,
        Replbot.AuthMode.everyone, Replbot.BotDispatch.TermSize.medium,
        Replbot.BotDispatch.Platform.slack⟩
      ⟨"1625773221.007500", Replbot.BotDispatch.ChannelType.channel⟩
      ⟨none, none, none, none⟩).windowMode = Replbot.BotDispatch.WindowMode.trim ∧
    (Replbot.BotDispatch.applySessionConfigDefaults
      ⟨Replbot.BotDispatch.ControlMode.channel, Replbot.BotDispatch.WindowMode.full,
        Replbot.AuthMode.everyone, Replbot.BotDispatch.TermSize.medium,
        Replbot.BotDispatch.Platform.slack⟩
      ⟨"1625773221.007500", Replbot.BotDispatch.ChannelType.channel⟩
      ⟨none, none, none, none⟩).size = Replbot.BotDispatch.TermSize.tiny :=
  ⟨(c8_thread_defaults
      ⟨Replbot.BotDispatch.ControlMode.channel, Replbot.BotDispatch.WindowMode.full,
        Replbot.AuthMode.everyone, Replbot.BotDispatch.TermSize.medium,
        Replbot.BotDispatch.Platform.slack⟩
      ⟨"1625773221.007500", Replbot.BotDispatch.ChannelType.channel⟩
      ⟨none, none, none, none⟩ (by decide)).1 rfl,
    (c8_thread_defaults
      ⟨Replbot.BotDispatch.ControlMode.channel, Replbot.BotDispatch.WindowMode.full,
        Replbot.AuthMode.everyone, Replbot.BotDispatch.TermSize.medium,
        Replbot.BotDispatch.Platform.slack⟩
      ⟨"1625773221.007500", Replbot.BotDispatch.ChannelType.channel⟩
      ⟨none, none, none, none⟩ (by decide)).2.2.1 rfl⟩

namespace Replbot.Screen

/-- The OS-visible state of one Screen terminal handle: presence of its
four temp files (src/util/screen.go lines 95-109), whether the screen
multiplexer session is alive, and whether the log file handle opened by
Start (line 25) is still open. -/
structure FsState where
  rcFilePresent : Bool
  logFilePresent : Bool
  regFilePresent : Bool
  hardcopyFilePresent : Bool
  screenAlive : Bool
  logHandleOpen : Bool
deriving DecidableEq, Repr

/-- Error returned by the embedded Stop: closing an already-closed os.File
returns os.ErrClosed ("file already closed"). -/
inductive StopError where
  | fileAlreadyClosed
deriving DecidableEq, Repr

/-- Stop from src/util/screen.go lines 79-93. The deferred block removes
the rc, log, reg and hardcopy files unconditionally; the body quits the
multiplexer session when it is still active (modelled as succeeding) and
then returns the result of s.log.Close(), which errors when the handle
was already closed by a previous Stop. -/
def Stop (st : FsState) : FsState × Option StopError :=
  let st1 := if st.screenAlive then { st with screenAlive := false } else st
  let closeErr : Option StopError :=
    if st1.logHandleOpen then none else some StopError.fileAlreadyClosed
  let st2 := { st1 with logHandleOpen := false }
  let st3 := { st2 with rcFilePresent := false, logFilePresent := false,
                        regFilePresent := false, hardcopyFilePresent := false }
  (st3, closeErr)

/-- State of a Screen handle right after a successful Start
(src/util/screen.go lines 20-39): the log and rc files exist, the log
handle is open and the multiplexer session is running; the paste-register
and hardcopy files are only created later by Paste and Hardcopy. -/
def startedState : FsState :=
  ⟨true, true, false, false, true, true⟩

/-- All four temp files of the handle are absent. -/
def tempFilesAbsent (st : FsState) : Bool :=
  !st.rcFilePresent && !st.logFilePresent && !st.regFilePresent && !st.hardcopyFilePresent

end Replbot.Screen

/-- C3 counterexample: for the handle state produced by Start, the first
Stop succeeds and removes all temp files, but the second Stop does NOT
succeed: it returns the error from closing the already-closed log file
handle, contradicting the claim that a second Stop returns no error. -/
theorem c3_second_stop_returns_error :
    (Replbot.Screen.Stop Replbot.Screen.startedState).2 = none ∧
    Replbot.Screen.tempFilesAbsent (Replbot.Screen.Stop Replbot.Screen.startedState).1 = true ∧
    (Replbot.Screen.Stop (Replbot.Screen.Stop Replbot.Screen.startedState).1).2 =
      some Replbot.Screen.StopError.fileAlreadyClosed := by
  decide

/-- C3 amended: after Stop returns, the rc, log, paste-register and
hardcopy files are all absent, and a second Stop leaves the state
unchanged - but it returns the "file already closed" error from closing
the log handle a second time, so Stop is idempotent on the OS state
without being error-free on repeated calls. -/
theorem c3_amended_stop_state_idempotent (st : Replbot.Screen.FsState)
    (h : st.logHandleOpen = true) :
    (Replbot.Screen.Stop st).2 = none ∧
    Replbot.Screen.tempFilesAbsent (Replbot.Screen.Stop st).1 = true ∧
    Replbot.Screen.Stop (Replbot.Screen.Stop st).1 =
      ((Replbot.Screen.Stop st).1, some Replbot.Screen.StopError.fileAlreadyClosed) := by
  obtain ⟨rc, lg, rg, hc, alive, op⟩ := st
  cases op
  · simp at h
  · cases rc <;> cases lg <;> cases rg <;> cases hc <;> cases alive <;> decide

/-- C3 amended, witness at the post-Start state. -/
theorem c3_amended_stop_state_idempotent_witness :
    (Replbot.Screen.Stop Replbot.Screen.startedState).2 = none ∧
    Replbot.Screen.tempFilesAbsent (Replbot.Screen.Stop Replbot.Screen.startedState).1 = true ∧
    Replbot.Screen.Stop (Replbot.Screen.Stop Replbot.Screen.startedState).1 =
      ((Replbot.Screen.Stop Replbot.Screen.startedState).1,
        some Replbot.Screen.StopError.fileAlreadyClosed) :=
  c3_amended_stop_state_idempotent Replbot.Screen.startedState (by decide)

namespace Replbot.Share

/-- The per-session data read by the reverse-forward callback: the
session's allocated relay port and the result of
sess.RegisterShareConn(conn) (the session type is not under src/, so the
registration outcome is an abstract boolean parameter). -/
structure ShareSessionInfo where
  relayPort : Nat
  registerOK : Bool
deriving DecidableEq, Repr

/-- sshReversePortForwardingCallback from src/bot/bot.go lines 361-383,
as a function of the registry lookup (b.sessions), whether the ssh
connection could be extracted from the context (line 362), the
authenticated user name, and the requested host:port. Result: (allow,
connClosed). The deferred close (lines 366-371) runs only after the
connection was extracted, and closes the connection whenever the request
is not allowed. -/
def sshReversePortForwardingCallback (sessions : String → Option ShareSessionInfo)
    (connOK : Bool) (user host : String) (port : Nat) : Bool × Bool :=
  if !connOK then (false, false)
  else if port < 1024 ∨ (host ≠ "localhost" ∧ host ≠ "127.0.0.1") then (false, true)
  else
    match sessions user with
    | none => (false, true)
    | some s => if port ≠ s.relayPort then (false, true) else (s.registerOK, !s.registerOK)

end Replbot.Share

/-- C5: a reverse-port-forward request is allowed only when the
authenticated user name is the id of a registered session, the requested
host is the local host, and the requested port is exactly that session's
relay port (and at least 1024, and the session accepted the connection);
and whenever the ssh connection is present but the target host is not
local or the port differs from the session's relay port, the request is
rejected and the connection is closed. -/
theorem c5_reverse_forward_gating (sessions : String → Option Replbot.Share.ShareSessionInfo)
    (connOK : Bool) (user host : String) (port : Nat) :
    ((Replbot.Share.sshReversePortForwardingCallback sessions connOK user host port).1 = true →
      ∃ s, sessions user = some s ∧ port = s.relayPort ∧ s.registerOK = true ∧
        1024 ≤ port ∧ (host = "localhost" ∨ host = "127.0.0.1")) ∧
    (connOK = true →
      ((host ≠ "localhost" ∧ host ≠ "127.0.0.1") ∨
        (∀ s, sessions user = some s → port ≠ s.relayPort)) →
      Replbot.Share.sshReversePortForwardingCallback sessions connOK user host port =
        (false, true)) := by
  constructor
  · intro hallow
    unfold Replbot.Share.sshReversePortForwardingCallback at hallow
    rcases hsess : sessions user with _ | s <;> simp only [hsess] at hallow
    · split_ifs at hallow
    · split_ifs at hallow with h1 h2 h3
      all_goals simp at hallow
      simp only [not_or, not_lt, not_and_or, ne_eq, not_not] at h2 h3
      exact ⟨s, rfl, h3, hallow, h2.1, h2.2⟩
  · intro hconn htarget
    subst hconn
    unfold Replbot.Share.sshReversePortForwardingCallback
    rcases hsess : sessions user with _ | s <;> simp only [hsess]
    · split_ifs with h0 h1
      · simp at h0
      · rfl
      · rfl
    · split_ifs with h0 h1 h2
      · simp at h0
      · rfl
      · rfl
      · simp only [not_or, not_lt, not_and_or, ne_eq, not_not] at h1 h2
        rcases htarget with hbad | hbad
        · exact absurd h1.2 (by tauto)
        · exact absurd h2 (hbad s hsess)

/-- Example registry with a single share session sess1 on relay port
5000, used by the C5 witness. -/
def demoRegistry : String → Option Replbot.Share.ShareSessionInfo
  | "sess1" => some ⟨5000, true⟩
  | _ => none

/-- C5, witness: session sess1 with relay port 5000; a request for
localhost:9999 by sess1 is rejected with the connection closed. -/
theorem c5_reverse_forward_gating_witness :
    Replbot.Share.sshReversePortForwardingCallback demoRegistry
      true "sess1" "localhost" 9999 = (false, true) :=
  (c5_reverse_forward_gating demoRegistry true "sess1" "localhost" 9999).2 rfl
    (Or.inr (fun s hs => by
      have hs2 : s = (⟨5000, true⟩ : Replbot.Share.ShareSessionInfo) := by
        have : demoRegistry "sess1" = some (⟨5000, true⟩ : Replbot.Share.ShareSessionInfo) := rfl
        rw [this] at hs
        exact (Option.some.injEq _ _ ▸ hs).symm
      subst hs2
      decide))

namespace Replbot

/-- The ESC character, 0x1B. -/
def escChar : Char := Char.ofNat 27

/-- Removal of every leftmost match of the shellEscapeRegex pattern
ESC [ [0-9;]* letter (src/session.go line 22, src/unnamed/part_001 line
18, applied by repl.go line 149 via ReplaceAllString) as a one-pass
character transducer. The `pending` accumulator holds the characters of a
partial match in reverse order; when the partial match fails, its
characters are emitted literally, exactly as the regex engine leaves a
failed match attempt in place. Only ESC can start a match, so resuming
at the failure character is equivalent to the engine resuming one
position after a failed attempt. -/
def stripAnsiGo (pending : List Char) : List Char → List Char
  | [] => pending.reverse
  | c :: rest =>
    match pending with
    | [] =>
      if c = escChar then stripAnsiGo [c] rest
      else c :: stripAnsiGo [] rest
    | [e] =>
      if c = '[' then stripAnsiGo [c, e] rest
      else if c = escChar then e :: stripAnsiGo [c] rest
      else e :: c :: stripAnsiGo [] rest
    | _ =>
      if c.isDigit || c = ';' then stripAnsiGo (c :: pending) rest
      else if c.isAlpha then stripAnsiGo [] rest
      else if c = escChar then pending.reverse ++ stripAnsiGo [c] rest
      else pending.reverse ++ (c :: stripAnsiGo [] rest)

/-- shellEscapeRegex.ReplaceAllString(s, "") on a string. -/
def stripAnsi (s : String) : String :=
  String.mk (stripAnsiGo [] s.data)

/-- maxMessageLength constant, src/session.go line 44 and
src/unnamed/part_001 line 42 (the constant used by src/bot/repl.go is
declared outside src/; both in-src declarations give 512). -/
def maxMessageLength : Nat := 512

end Replbot

namespace Replbot.Repl

/-- One stimulus consumed by a select iteration of
commandOutputForwarder (src/bot/repl.go lines 142-172): a byte chunk
delivered on outChan, the 300 ms timer firing, or ctx.Done(). -/
inductive FwdEvent where
  | chunk (s : String)
  | tick
  | done
deriving DecidableEq, Repr

/-- How a run of commandOutputForwarder ended: a chat send failed and the
function returned that error (which cancels the errgroup and thus the
session), the function returned errExit after the ctx.Done() flush, or
the stimulus list was exhausted with the loop still running. -/
inductive FwdOutcome where
  | errSend
  | exited
  | running
deriving DecidableEq, Repr

/-- The loop of commandOutputForwarder (src/bot/repl.go lines 145-171),
processing one stimulus per iteration. `buf` is the local variable
message, `n` counts the sends attempted so far, `sent` accumulates the
successfully sent messages (newest first), and `sendOK n` tells whether
the n-th sender.Send call succeeds. On a chunk, the stripped bytes are
appended and a send is attempted only when the buffer exceeds
maxMessageLength; on a tick, any nonempty buffer is flushed; on done,
any nonempty buffer is flushed and the function returns errExit. A
failed send makes the function return the error at once. -/
def fwdGo (sendOK : Nat → Bool) :
    String → Nat → List String → List FwdEvent → List String × FwdOutcome
  | _, _, sent, [] => (sent.reverse, FwdOutcome.running)
  | buf, n, sent, FwdEvent.chunk s :: rest =>
    let buf2 := buf ++ Replbot.stripAnsi s
    if buf2.length > Replbot.maxMessageLength then
      if sendOK n then fwdGo sendOK "" (n + 1) (buf2 :: sent) rest
      else (sent.reverse, FwdOutcome.errSend)
    else fwdGo sendOK buf2 n sent rest
  | buf, n, sent, FwdEvent.tick :: rest =>
    if buf.length > 0 then
      if sendOK n then fwdGo sendOK "" (n + 1) (buf :: sent) rest
      else (sent.reverse, FwdOutcome.errSend)
    else fwdGo sendOK buf n sent rest
  | buf, n, sent, FwdEvent.done :: _ =>
    if buf.length > 0 then
      if sendOK n then ((buf :: sent).reverse, FwdOutcome.exited)
      else (sent.reverse, FwdOutcome.errSend)
    else (sent.reverse, FwdOutcome.exited)

/-- commandOutputForwarder from src/bot/repl.go lines 142-172, run on a
list of stimuli from the empty initial buffer. Returns the successfully
sent messages in order and the outcome. -/
def commandOutputForwarder (sendOK : Nat → Bool) (evs : List FwdEvent) :
    List String × FwdOutcome :=
  fwdGo sendOK "" 0 [] evs

/-- A 513-character chunk, one byte above maxMessageLength. -/
def bigChunk : String := String.mk (List.replicate 513 'a')

end Replbot.Repl

/-- C6 counterexample: when the chat sender fails, the flush performed on
the first tick makes commandOutputForwarder return the send error
immediately: the task terminates (errgroup cancellation closes the
session) and the following tick is never processed, contradicting the
claim that the send error is non-fatal and retried on the next tick. -/
theorem c6_send_failure_terminates_counterexample :
    Replbot.Repl.commandOutputForwarder (fun _ => false)
      [Replbot.Repl.FwdEvent.chunk "hello", Replbot.Repl.FwdEvent.tick,
        Replbot.Repl.FwdEvent.tick] = ([], Replbot.Repl.FwdOutcome.errSend) := by
  decide

/-- C6 amended: a chat send failure while flushing terminal output is
fatal to the output task: commandOutputForwarder returns the error at the
first failed flush, whatever stimuli would follow, so nothing is retried
on a later tick. -/
theorem c6_amended_send_failure_fatal (evs : List Replbot.Repl.FwdEvent) :
    Replbot.Repl.commandOutputForwarder (fun _ => false)
      (Replbot.Repl.FwdEvent.chunk "hello" :: Replbot.Repl.FwdEvent.tick :: evs) =
      ([], Replbot.Repl.FwdOutcome.errSend) := by
  rfl

set_option maxRecDepth 40000 in
/-- C9 counterexample: two 513-byte chunks arriving with no tick between
them trigger two size-limit flushes, so two chat messages are posted
within a single tick interval, contradicting the claim that at most one
message is posted per tick regardless of how many bytes arrive. -/
theorem c9_burst_two_sends_counterexample :
    (Replbot.Repl.commandOutputForwarder (fun _ => true)
      [Replbot.Repl.FwdEvent.chunk Replbot.Repl.bigChunk,
        Replbot.Repl.FwdEvent.chunk Replbot.Repl.bigChunk]).1 =
      [Replbot.Repl.bigChunk, Replbot.Repl.bigChunk] := by
  decide

/-- C9 amended: output is coalesced only up to the maxMessageLength
limit: every iteration of the forwarder loop (an arriving chunk, a tick,
or the final flush) posts at most one chat message, so the number of
messages posted is bounded by the number of loop stimuli, but a burst
larger than the size limit can produce several messages within one tick
interval. -/
theorem c9_amended_at_most_one_send_per_event (sendOK : Nat → Bool)
    (evs : List Replbot.Repl.FwdEvent) :
    (Replbot.Repl.commandOutputForwarder sendOK evs).1.length ≤ evs.length := by
  have key : ∀ (l : List Replbot.Repl.FwdEvent) (buf : String) (n : Nat)
      (sent : List String),
      (Replbot.Repl.fwdGo sendOK buf n sent l).1.length ≤ sent.length + l.length := by
    intro l
    induction l with
    | nil => intro buf n sent; simp [Replbot.Repl.fwdGo]
    | cons e rest ih =>
      intro buf n sent
      cases e with
      | chunk s =>
        simp only [Replbot.Repl.fwdGo]
        split_ifs
        · have := ih "" (n + 1) ((buf ++ Replbot.stripAnsi s) :: sent)
          simp only [List.length_cons] at this ⊢
          omega
        · simp only [List.length_reverse, List.length_cons]
          omega
        · have := ih (buf ++ Replbot.stripAnsi s) n sent
          simp only [List.length_cons] at this ⊢
          omega
      | tick =>
        simp only [Replbot.Repl.fwdGo]
        split_ifs
        · have := ih "" (n + 1) (buf :: sent)
          simp only [List.length_cons] at this ⊢
          omega
        · simp only [List.length_reverse, List.length_cons]
          omega
        · have := ih buf n sent
          simp only [List.length_cons] at this ⊢
          omega
      | done =>
        simp only [Replbot.Repl.fwdGo]
        split_ifs <;> simp only [List.length_reverse, List.length_cons] <;> omega
  simpa using key evs "" 0 []

namespace Replbot.P1

/-- Chat-visible events of a part_001 session, in program order: a
message sent via PostMessage, or the closed flag being set. Inside
close() (src/unnamed/part_001 lines 233-242) the send happens before the
flag is set, so close contributes [send msg, setClosed]. -/
inductive ChatEvent where
  | send (msg : String)
  | setClosed
deriving DecidableEq, Repr

/-- State of the part_001 session shared between its concurrent loops:
the closed flag (guarded by the mutex), the response loop's accumulated
message buffer, whether the replSession input loop (lines 183-202) is
the current consumer of inputChan, whether the response goroutine of the
current replSession has returned, and whether the top-level inputLoop
(lines 76-95) has returned. -/
structure SessState where
  closed : Bool
  buf : String
  replRunning : Bool
  outputDone : Bool
  loopDone : Bool
deriving DecidableEq, Repr

/-- sendCode from src/unnamed/part_001 lines 212-215: the message is
wrapped in a fixed-width code block with inner triple backquotes broken
up. -/
def sendCodeText (s : String) : String :=
  "```" ++ s.replace "```" "` ` `" ++ "```"

/-- byeMessage constant, src/unnamed/part_001 line 34. -/
def byeMessage : String := "REPLbot says bye bye!"

/-- The message passed to close() by the response loop on EOF,
src/unnamed/part_001 line 167. -/
def replExitedCloseMessage : String := "REPL exited. Terminating session"

/-- The message sent when a replSession starts, src/unnamed/part_001
line 182. -/
def sessionStartedMessage : String := "Started a new REPL session"

/-- The reply to an unknown top-level command, src/unnamed/part_001
line 89. -/
def invalidCommandMessage : String := "Invalid command"

/-- The names in the availableREPLs map, src/unnamed/part_001 lines
25-29 (Go map iteration order is unspecified; this list fixes one
order, and no theorem depends on it). -/
def availableREPLNames : List String := ["bash", "python", "nodejs"]

/-- replList/sayExited formatting, src/unnamed/part_001 lines 102-113:
the session-exited message with the backquoted REPL list joined by
", ". -/
def sessionExitedMessageText : String :=
  "REPL session ended.\n\nYou may start a new session by choosing any one of the " ++
  "available REPLs: " ++
  String.intercalate ", " (availableREPLNames.map fun n => "`" ++ n ++ "`") ++
  ". Type `!help` for help and `!exit` to exit this session."

/-- availableREPLs lookup, src/unnamed/part_001 lines 25-29. -/
def availableREPLs (s : String) : Option String :=
  if s = "bash" then some "docker run -it ubuntu"
  else if s = "python" then some "docker run -it python"
  else if s = "nodejs" then some "docker run -it node"
  else none

/-- close(message) from src/unnamed/part_001 lines 233-242: under the
mutex, a no-op when already closed; otherwise it sends the message and
then sets the closed flag. -/
def closeSession (st : SessState) (msg : String) : SessState × List ChatEvent :=
  if st.closed then (st, [])
  else ({ st with closed := true }, [ChatEvent.send msg, ChatEvent.setClosed])

/-- External stimuli of the part_001 session, one per scheduler step: a
user chat line delivered on inputChan, a chunk read from the pty and
delivered on readChan, the 300 ms timeout firing in the response loop,
or the pty read returning io.EOF. -/
inductive SessEvent where
  | userLine (s : String)
  | chunk (s : String)
  | tick
  | eofRead
deriving DecidableEq, Repr

/-- One interleaving step of the part_001 session, combining the
response loop (lines 146-180), the replSession input loop (lines
183-202) and the top-level inputLoop (lines 76-95). chunk: append the
stripped bytes to the buffer and flush when it exceeds maxMessageLength;
tick: flush a nonempty buffer; eofRead: flush, then close with the
"REPL exited" message and leave the response loop (the replSession input
loop keeps consuming inputChan); userLine: handled by the replSession
loop while it runs ("!help" replies, "!exit" returns and inputLoop says
the session exited, a control alias or plain text goes to the pty with
no chat send), and by the top-level inputLoop otherwise. -/
def step (st : SessState) : SessEvent → SessState × List ChatEvent
  | SessEvent.chunk s =>
    if st.outputDone then (st, [])
    else
      let buf2 := st.buf ++ Replbot.stripAnsi s
      if buf2.length > Replbot.maxMessageLength then
        ({ st with buf := "" }, [ChatEvent.send (sendCodeText buf2)])
      else ({ st with buf := buf2 }, [])
  | SessEvent.tick =>
    if st.outputDone then (st, [])
    else if st.buf.length > 0 then
      ({ st with buf := "" }, [ChatEvent.send (sendCodeText st.buf)])
    else (st, [])
  | SessEvent.eofRead =>
    if st.outputDone then (st, [])
    else
      let flushEvs :=
        if st.buf.length > 0 then [ChatEvent.send (sendCodeText st.buf)] else []
      let res := closeSession { st with buf := "", outputDone := true }
        replExitedCloseMessage
      (res.1, flushEvs ++ res.2)
  | SessEvent.userLine line =>
    if st.loopDone then (st, [])
    else if st.replRunning then
      if Replbot.strBegins line "!" then
        if line = "!help" then (st, [ChatEvent.send Replbot.availableCommandsMessage])
        else if line = "!exit" then
          ({ st with replRunning := false }, [ChatEvent.send sessionExitedMessageText])
        else (st, [])
      else (st, [])
    else
      if line = "!exit" then
        let res := closeSession st byeMessage
        ({ res.1 with loopDone := true }, res.2)
      else if line = "!help" then (st, [ChatEvent.send Replbot.availableCommandsMessage])
      else
        match availableREPLs line with
        | none => (st, [ChatEvent.send invalidCommandMessage])
        | some _ =>
          ({ st with replRunning := true, outputDone := false },
            [ChatEvent.send sessionStartedMessage])

/-- The chat-event trace of a session run from state st under a given
schedule of stimuli. -/
def trace (st : SessState) : List SessEvent → List ChatEvent
  | [] => []
  | e :: rest =>
    let res := step st e
    res.2 ++ trace res.1 rest

/-- Session state while a replSession is running, before any output has
been buffered and before anything closed: the reachable state right
after a REPL command was accepted. -/
def replRunningState : SessState :=
  ⟨false, "", true, false, false⟩

/-- True when no send event follows a setClosed event in the trace. -/
def noSendAfterClosed : List ChatEvent → Bool
  | [] => true
  | ChatEvent.setClosed :: rest =>
    rest.all fun e =>
      match e with
      | ChatEvent.send _ => false
      | _ => true
  | _ :: rest => noSendAfterClosed rest

/-- Number of setClosed events in a trace. -/
def countSetClosed : List ChatEvent → Nat
  | [] => 0
  | ChatEvent.setClosed :: rest => countSetClosed rest + 1
  | _ :: rest => countSetClosed rest

end Replbot.P1

/-- C2 counterexample: in a running part_001 session, the schedule in
which the pty read returns EOF (so the response loop flushes, sends the
"REPL exited" message and sets the closed flag) and the user then sends
"!help" (still consumed by the replSession input loop, which replies
with the help text) produces a chat send after the transition to
closed - the closed flag does not gate the later send. -/
theorem c2_send_after_closed_counterexample :
    Replbot.P1.trace Replbot.P1.replRunningState
        [Replbot.P1.SessEvent.eofRead, Replbot.P1.SessEvent.userLine "!help"] =
      [Replbot.P1.ChatEvent.send Replbot.P1.replExitedCloseMessage,
        Replbot.P1.ChatEvent.setClosed,
        Replbot.P1.ChatEvent.send Replbot.availableCommandsMessage] ∧
    Replbot.P1.noSendAfterClosed
      (Replbot.P1.trace Replbot.P1.replRunningState
        [Replbot.P1.SessEvent.eofRead, Replbot.P1.SessEvent.userLine "!help"]) = false := by
  decide

/-- Potential of a state for the closed-flag transition count. -/
def Replbot.P1.closePotential (st : Replbot.P1.SessState) : Nat :=
  if st.closed then 0 else 1

/-- Per-step invariant for C2 amended: one step emits at most one
setClosed event, and only when the flag flips from false to true. -/
theorem c2_step_close_invariant (st : Replbot.P1.SessState) (e : Replbot.P1.SessEvent) :
    Replbot.P1.countSetClosed (Replbot.P1.step st e).2 +
      Replbot.P1.closePotential (Replbot.P1.step st e).1 ≤
      Replbot.P1.closePotential st := by
  obtain ⟨cl, buf, rr, od, ld⟩ := st
  cases e with
  | chunk s =>
    cases cl <;> cases od <;>
      simp [Replbot.P1.step, Replbot.P1.closePotential, Replbot.P1.countSetClosed] <;>
      (try split_ifs) <;>
      simp_all [Replbot.P1.countSetClosed]
  | tick =>
    cases cl <;> cases od <;>
      simp [Replbot.P1.step, Replbot.P1.closePotential, Replbot.P1.countSetClosed] <;>
      (try split_ifs) <;>
      simp_all [Replbot.P1.countSetClosed]
  | eofRead =>
    cases cl <;> cases od <;>
      simp [Replbot.P1.step, Replbot.P1.closeSession, Replbot.P1.closePotential,
        Replbot.P1.countSetClosed] <;>
      (try split_ifs) <;>
      simp_all [Replbot.P1.countSetClosed]
  | userLine line =>
    rcases hrepl : Replbot.P1.availableREPLs line with _ | cmd <;>
    cases cl <;> cases ld <;> cases rr <;>
      simp [Replbot.P1.step, Replbot.P1.closeSession, Replbot.P1.closePotential,
        Replbot.P1.countSetClosed, hrepl] <;>
      (try split_ifs) <;>
      simp_all [Replbot.P1.countSetClosed]

/-- C2 amended: the closed flag is set at most once per session run (the
close function is a no-op once the flag is set, and within close the
farewell send precedes the flag update); however the flag does not gate
the other chat sends, so - as the counterexample shows - a send can
still occur after the transition to closed while the REPL input loop is
running. This theorem proves the positive part: along every schedule,
a session starting from an unclosed state transitions to closed at most
once, and a session already closed never transitions again. -/
theorem c2_amended_at_most_one_close (st : Replbot.P1.SessState)
    (evs : List Replbot.P1.SessEvent) :
    Replbot.P1.countSetClosed (Replbot.P1.trace st evs) ≤
      Replbot.P1.closePotential st := by
  induction evs generalizing st with
  | nil => simp [Replbot.P1.trace, Replbot.P1.countSetClosed]
  | cons e rest ih =>
    simp only [Replbot.P1.trace]
    have hsplit : ∀ l1 l2 : List Replbot.P1.ChatEvent,
        Replbot.P1.countSetClosed (l1 ++ l2) =
          Replbot.P1.countSetClosed l1 + Replbot.P1.countSetClosed l2 := by
      intro l1 l2
      induction l1 with
      | nil => simp [Replbot.P1.countSetClosed]
      | cons x xs ihx =>
        cases x <;> simp [Replbot.P1.countSetClosed, ihx] <;> omega
    rw [hsplit]
    have h1 := c2_step_close_invariant st e
    have h2 := ih (Replbot.P1.step st e).1
    omega
